import Mathlib

/-
Verification of the Swiss payment-reference codec and monetary arithmetic of
the elastiq-invoices repository.

Embedding conventions:
* JavaScript strings are `List Char`; JavaScript numbers are `ℚ` (exact
  rationals standing for the mathematical value of the computation).
* `src/domain/qr.js` : `calculateMod10CheckDigit`, `calculateRF97CheckNat`,
  `calculateRF97CheckDigits`, `generateReference`, `isQRIBAN`.
* `src/domain/dto.js` : `QRBillDTO.validate` with one error constructor per
  distinct `throw` site, evaluated in source order (first failure wins).
* `src/domain/money.js` : `roundCurrency` (Math.round is the nearest integer
  with ties toward +∞, i.e. `⌊x + 1/2⌋`; `Number.EPSILON = 2⁻⁵²`),
  `parseAmount` (including the JS `parseFloat` prefix grammar restricted to
  the character set that survives the cleaning regex).
-/

namespace ElastiqInvoices

/-- `48 ≤ c ≤ 57`, i.e. the character class `[0-9]`. -/
def isDigitChar (c : Char) : Bool :=
  decide (48 ≤ c.toNat) && decide (c.toNat ≤ 57)

/-- Numeric value of a decimal digit character (JS `parseInt(ch)` / `Number(ch)`). -/
def charToDigit (c : Char) : ℕ := c.toNat - 48

/-- The character class `[A-Za-z0-9]` used by the SCOR reference pattern. -/
def isAlnumChar (c : Char) : Bool :=
  isDigitChar c || (decide (65 ≤ c.toNat) && decide (c.toNat ≤ 90)) ||
    (decide (97 ≤ c.toNat) && decide (c.toNat ≤ 122))

/-- JS `String.prototype.padStart(n, fill)`. -/
def padStart (n : ℕ) (fill : Char) (s : List Char) : List Char :=
  List.replicate (n - s.length) fill ++ s

/-- JS `str.replace(/[^0-9]/g, '')`. -/
def stripNonDigits (s : List Char) : List Char := s.filter isDigitChar

/-- Value of a digit list read as a base-10 numeral, most significant first. -/
def natOfDigits (ds : List ℕ) : ℕ := ds.foldl (fun a d => a * 10 + d) 0

/-- JS `Number.prototype.toString()` for a natural number (decimal digits). -/
def natRepr (n : ℕ) : List Char := Nat.toDigits 10 n

/-- Lookup table of `calculateMod10CheckDigits` (src/domain/qr.js). -/
def mod10Table : List ℕ := [0, 9, 4, 6, 8, 2, 7, 1, 3, 5]

/-- The carry left by the loop of `calculateMod10CheckDigits`:
`carry = table[(carry + digit) % 10]` over the digits left-to-right. -/
def mod10Carry (ds : List ℕ) : ℕ :=
  ds.foldl (fun carry d => mod10Table.getD ((carry + d) % 10) 0) 0

/-- `calculateMod10CheckDigits` (src/domain/qr.js): returns `(10 - carry) % 10`. -/
def calculateMod10CheckDigit (ds : List ℕ) : ℕ := (10 - mod10Carry ds) % 10

/-- The digit-by-digit modulo-97 reduction loop of `calculateRF97CheckDigits`:
`remainder = (remainder * 10 + digit) % 97`. -/
def mod97Fold (ds : List ℕ) : ℕ := ds.foldl (fun r d => (r * 10 + d) % 97) 0

/-- Numeric value computed by `calculateRF97CheckDigits` (src/domain/qr.js):
the code appends the digits `2715` to the payload and returns `98 - remainder`. -/
def calculateRF97CheckNat (p : List ℕ) : ℕ := 98 - mod97Fold (p ++ [2, 7, 1, 5])

/-- `calculateRF97CheckDigits` (src/domain/qr.js):
`(98 - remainder).toString().padStart(2, '0')`. -/
def calculateRF97CheckDigits (p : List ℕ) : List Char :=
  padStart 2 '0' (natRepr (calculateRF97CheckNat p))

/-- The regex `^CH\d{2}3[01]\d{3}\d{12}$` of `isQRIBAN` / `QRBillDTO.validate`. -/
def qrIbanPattern (s : List Char) : Bool :=
  match s with
  | c0 :: c1 :: d1 :: d2 :: i1 :: i2 :: rest =>
      c0 == 'C' && c1 == 'H' && isDigitChar d1 && isDigitChar d2 &&
        i1 == '3' && (i2 == '0' || i2 == '1') &&
        rest.length == 15 && rest.all isDigitChar
  | _ => false

/-- `parseInt(iban.substring(4, 9), 10)`: the institution identifier. -/
def iidOf (s : List Char) : ℕ := natOfDigits (((s.drop 4).take 5).map charToDigit)

/-- The range test `iid >= 30000 && iid <= 31999`. -/
def iidInRange (s : List Char) : Bool :=
  decide (30000 ≤ iidOf s) && decide (iidOf s ≤ 31999)

/-- `isQRIBAN` (src/domain/qr.js): pattern test with early `false`, then the
IID range test (the early return is the short-circuit of `&&`). -/
def isQRIBAN (s : List Char) : Bool :=
  qrIbanPattern s && iidInRange s

/-- The regex `^\d{27}$` used for QRR references in `QRBillDTO.validate`. -/
def qrrRefPattern (s : List Char) : Bool :=
  (s.length == 27) && s.all isDigitChar

/-- The regex `^RF\d{2}[A-Za-z0-9]+$` used for SCOR references in
`QRBillDTO.validate`. -/
def scorRefPattern (s : List Char) : Bool :=
  match s with
  | 'R' :: 'F' :: d1 :: d2 :: rest =>
      isDigitChar d1 && isDigitChar d2 && !rest.isEmpty && rest.all isAlnumChar
  | _ => false

/-- `generateReference` (src/domain/qr.js), with the configuration values
`qrReferenceType` and `qrReference` passed explicitly; an empty `qrReference`
is the falsy "not configured" case. -/
def generateReference (referenceType : String) (qrReference : List Char)
    (invoiceNumber : List Char) : List Char :=
  if referenceType == "NON" then []
  else if referenceType == "SCOR" then
    if !qrReference.isEmpty then qrReference
    else
      let invoiceNum := padStart 8 '0' (stripNonDigits invoiceNumber)
      'R' :: 'F' :: (calculateRF97CheckDigits (invoiceNum.map charToDigit) ++ invoiceNum)
  else if referenceType == "QRR" then
    if !qrReference.isEmpty then qrReference
    else
      let invoiceNum := padStart 20 '0' (stripNonDigits invoiceNumber)
      invoiceNum ++ natRepr (calculateMod10CheckDigit (invoiceNum.map charToDigit))
  else []

/-- One constructor per distinct `throw` site of `QRBillDTO.validate`
(src/domain/dto.js); the two QR-IBAN throws share one message and one kind. -/
inductive ValidationError where
  | missingAccount
  | unsupportedCurrency
  | unsupportedScheme
  | schemeAccountMismatch
  | badReferenceLength
  | badReferenceFormat
  | amountOutOfRange
deriving DecidableEq

/-- The fields of `QRBillDTO` that `validate` inspects. -/
structure QRBillDTO where
  account : List Char
  currency : String
  referenceType : String
  reference : List Char
  amount : ℚ

/-- `QRBillDTO.validate` (src/domain/dto.js), rules in source order,
first failure wins. -/
def QRBillDTO.validate (b : QRBillDTO) : Except ValidationError Unit :=
  if b.account.isEmpty then .error .missingAccount
  else if !(b.currency == "CHF" || b.currency == "EUR") then
    .error .unsupportedCurrency
  else if !(b.referenceType == "QRR" || b.referenceType == "SCOR" ||
      b.referenceType == "NON") then
    .error .unsupportedScheme
  else if b.referenceType == "QRR" && !qrIbanPattern b.account then
    .error .schemeAccountMismatch
  else if b.referenceType == "QRR" && !iidInRange b.account then
    .error .schemeAccountMismatch
  else if b.referenceType == "QRR" && !qrrRefPattern b.reference then
    .error .badReferenceLength
  else if b.referenceType == "SCOR" && !b.reference.isEmpty &&
      !scorRefPattern b.reference then
    .error .badReferenceFormat
  else if b.amount < 0.01 ∨ b.amount > 999999999.99 then
    .error .amountOutOfRange
  else .ok ()

/-- `Number.EPSILON`, the machine epsilon of IEEE binary64: `2⁻⁵²`. -/
def epsJS : ℚ := 1 / 2 ^ 52

/-- JS `Math.round`: the integer nearest to `x`, ties toward `+∞`. -/
def jsRound (x : ℚ) : ℤ := ⌊x + 1 / 2⌋

/-- `roundCurrency` (src/domain/money.js):
`Math.round((amount + Number.EPSILON) * 100) / 100`. -/
def roundCurrency (amount : ℚ) : ℚ := (jsRound ((amount + epsJS) * 100) : ℚ) / 100

/-- The dynamically typed input of `parseAmount`. -/
inductive JSValue where
  | num (q : ℚ)
  | str (s : List Char)
  | nullV
  | undefinedV

/-- The character class `[\d.,''-]` kept by the cleaning regex of
`parseAmount` (the apostrophe appears twice in the source class). -/
def keepAmountChar (c : Char) : Bool :=
  isDigitChar c || c == '.' || c == ',' || c == '\'' || c == '-'

/-- `value.replace(/[^\d.,''-]/g, '')`. -/
def cleanAmountChars (s : List Char) : List Char := s.filter keepAmountChar

/-- JS `String.prototype.lastIndexOf` on a single character, `-1` if absent. -/
def lastIndexOfAux (c : Char) : List Char → ℤ → ℤ → ℤ
  | [], _, best => best
  | x :: xs, i, best => lastIndexOfAux c xs (i + 1) (if x == c then i else best)

/-- JS `s.lastIndexOf(c)`. -/
def lastIndexOf (s : List Char) (c : Char) : ℤ := lastIndexOfAux c s 0 (-1)

/-- JS `s.replace(/[c...]/g, '')` for a set of single characters. -/
def removeChars (bad : List Char) (s : List Char) : List Char :=
  s.filter (fun c => !bad.contains c)

/-- JS `s.replace(a, b)` with a one-character string pattern: replaces only
the first occurrence. -/
def replaceFirst (s : List Char) (a b : Char) : List Char :=
  match s with
  | [] => []
  | x :: xs => if x == a then b :: xs else x :: replaceFirst xs a b

/-- The decimal-separator disambiguation of `parseAmount`
(src/domain/money.js lines 127-139). -/
def disambiguateSeparators (s : List Char) : List Char :=
  let lastDot := lastIndexOf s '.'
  let lastComma := lastIndexOf s ','
  if lastDot > lastComma then removeChars [',', '\''] s
  else if lastComma > lastDot then replaceFirst (removeChars ['.', '\''] s) ',' '.'
  else removeChars ['\''] s

/-- Longest prefix of decimal digits together with the rest of the string. -/
def takeDigits : List Char → List ℕ × List Char
  | [] => ([], [])
  | c :: rest =>
      if isDigitChar c then
        let p := takeDigits rest
        (charToDigit c :: p.1, p.2)
      else ([], c :: rest)

/-- Value of a fraction-digit list: `[d₁, d₂, ...] ↦ 0.d₁d₂...`. -/
def fracValue (ds : List ℕ) : ℚ := ds.foldr (fun d acc => ((d : ℚ) + acc) / 10) 0

/-- Optional leading sign of a JS `parseFloat` literal: whether the value is
negated, and the remaining characters. -/
def jsParseFloatSign : List Char → Bool × List Char
  | '-' :: r => (true, r)
  | '+' :: r => (false, r)
  | s => (false, s)

/-- The syntactic part of JS `parseFloat`, restricted to the characters that
can survive the cleaning and disambiguation steps (no exponents, no
whitespace): sign flag, integer digits and fraction digits of the longest
valid prefix; trailing garbage is ignored. -/
def jsParseFloatParts (s : List Char) : Bool × List ℕ × List ℕ :=
  let sr := jsParseFloatSign s
  let ip := takeDigits sr.2
  let fp : List ℕ :=
    match ip.2 with
    | '.' :: r => (takeDigits r).1
    | _ => []
  (sr.1, ip.1, fp)

/-- JS `parseFloat` on a cleaned amount string; `none` models `NaN`
(no digit parsed at all). -/
def jsParseFloat (s : List Char) : Option ℚ :=
  let p := jsParseFloatParts s
  if p.2.1.isEmpty && p.2.2.isEmpty then none
  else some ((if p.1 then (-1 : ℚ) else 1) * ((natOfDigits p.2.1 : ℚ) + fracValue p.2.2))

/-- `parseAmount` (src/domain/money.js): numbers pass through, strings are
cleaned, disambiguated and parsed with `parseFloat(...) || 0`, and any other
value (null, undefined) yields `0`. -/
def parseAmount : JSValue → ℚ
  | .num q => q
  | .str s => (jsParseFloat (disambiguateSeparators (cleanAmountChars s))).getD 0
  | .nullV => 0
  | .undefinedV => 0

/-- The valid SCOR fixture of test/qr.test.js (`validQRData`): account
`CH4431999123000889012`, currency CHF, reference `RF18539007547034`,
amount `1234.56`. -/
def validQRData : QRBillDTO :=
  { account := "CH4431999123000889012".toList
    currency := "CHF"
    referenceType := "SCOR"
    reference := "RF18539007547034".toList
    amount := 1234.56 }

/-! ## Helper lemmas -/

theorem mod97Fold_aux_lt (ds : List ℕ) (a : ℕ) (ha : a < 97) :
    ds.foldl (fun r d => (r * 10 + d) % 97) a < 97 := by
  induction ds generalizing a with
  | nil => exact ha
  | cons d ds ih => exact ih _ (Nat.mod_lt _ (by norm_num))

theorem mod97Fold_lt (ds : List ℕ) : mod97Fold ds < 97 :=
  mod97Fold_aux_lt ds 0 (by norm_num)

theorem mod10Table_getD_lt (i : ℕ) : mod10Table.getD i 0 < 10 := by
  rcases i with _ | _ | _ | _ | _ | _ | _ | _ | _ | _ | i <;>
    simp [mod10Table, List.getD, List.getElem?_cons_succ]

theorem mod10Carry_aux_lt (ds : List ℕ) (a : ℕ) (ha : a < 10) :
    ds.foldl (fun carry d => mod10Table.getD ((carry + d) % 10) 0) a < 10 := by
  induction ds generalizing a with
  | nil => exact ha
  | cons d ds ih => exact ih _ (mod10Table_getD_lt _)

theorem mod10Carry_lt (ds : List ℕ) : mod10Carry ds < 10 :=
  mod10Carry_aux_lt ds 0 (by norm_num)

theorem mod10Carry_append (ds : List ℕ) (x : ℕ) :
    mod10Carry (ds ++ [x]) = mod10Table.getD ((mod10Carry ds + x) % 10) 0 := by
  simp [mod10Carry, List.foldl_append]

theorem natRepr_pad_two_length : ∀ n, n < 100 → (padStart 2 '0' (natRepr n)).length = 2 := by
  decide

theorem natRepr_pad_two_value :
    ∀ n, n < 100 → natOfDigits ((padStart 2 '0' (natRepr n)).map charToDigit) = n := by
  decide

theorem char_toNat_inj {c d : Char} (h : c.toNat = d.toNat) : c = d :=
  Char.eq_of_val_eq (UInt32.ext h)

theorem isDigitChar_iff {c : Char} : isDigitChar c = true ↔ 48 ≤ c.toNat ∧ c.toNat ≤ 57 := by
  simp [isDigitChar]

/-! ## Claims about the reference checksums -/

/-- C3: for every digit-string payload, `calculateRF97CheckDigits` (appending
the digits `2715` and iterating `remainder = (remainder*10 + digit) % 97`,
returning `98 - remainder` zero-padded to width 2) produces a 2-character
string whose numeric value lies in `[1, 98]` and is never `0` or `99`. -/
theorem rf97_check_value_in_range (p : List ℕ) (hp : ∀ d ∈ p, d < 10) :
    1 ≤ calculateRF97CheckNat p ∧ calculateRF97CheckNat p ≤ 98 ∧
      calculateRF97CheckNat p ≠ 0 ∧ calculateRF97CheckNat p ≠ 99 ∧
      (calculateRF97CheckDigits p).length = 2 ∧
      natOfDigits ((calculateRF97CheckDigits p).map charToDigit) = calculateRF97CheckNat p := by
  have hr : mod97Fold (p ++ [2, 7, 1, 5]) < 97 := mod97Fold_lt _
  have hc : 1 ≤ calculateRF97CheckNat p ∧ calculateRF97CheckNat p ≤ 98 := by
    unfold calculateRF97CheckNat
    omega
  have hlt : calculateRF97CheckNat p < 100 := by omega
  exact ⟨hc.1, hc.2, by omega, by omega,
    natRepr_pad_two_length _ hlt, natRepr_pad_two_value _ hlt⟩

/-- Witness for C3 at the payload `12345678` used by the repository's tests. -/
theorem rf97_check_value_in_range_witness :
    1 ≤ calculateRF97CheckNat [1, 2, 3, 4, 5, 6, 7, 8] ∧
      calculateRF97CheckNat [1, 2, 3, 4, 5, 6, 7, 8] ≤ 98 ∧
      calculateRF97CheckNat [1, 2, 3, 4, 5, 6, 7, 8] ≠ 0 ∧
      calculateRF97CheckNat [1, 2, 3, 4, 5, 6, 7, 8] ≠ 99 ∧
      (calculateRF97CheckDigits [1, 2, 3, 4, 5, 6, 7, 8]).length = 2 ∧
      natOfDigits ((calculateRF97CheckDigits [1, 2, 3, 4, 5, 6, 7, 8]).map charToDigit) =
        calculateRF97CheckNat [1, 2, 3, 4, 5, 6, 7, 8] :=
  rf97_check_value_in_range [1, 2, 3, 4, 5, 6, 7, 8] (by decide)

/-- C4: `calculateMod10CheckDigits` folds a carry through the lookup table
`[0,9,4,6,8,2,7,1,3,5]` and returns `(10 - carry) % 10`; for every 26-digit
string the result is a single digit in `[0, 9]`. -/
theorem mod10_check_digit_single (ds : List ℕ) (hlen : ds.length = 26)
    (hd : ∀ d ∈ ds, d < 10) : calculateMod10CheckDigit ds ≤ 9 := by
  unfold calculateMod10CheckDigit
  have := Nat.mod_lt (10 - mod10Carry ds) (show 0 < 10 by norm_num)
  omega

/-- Witness for C4 at the 26-digit payload of the repository's tests. -/
theorem mod10_check_digit_single_witness :
    calculateMod10CheckDigit
      [1, 2, 3, 4, 5, 6, 7, 8, 9, 0, 1, 2, 3, 4, 5, 6, 7, 8, 9, 0, 1, 2, 3, 4, 5, 6] ≤ 9 :=
  mod10_check_digit_single
    [1, 2, 3, 4, 5, 6, 7, 8, 9, 0, 1, 2, 3, 4, 5, 6, 7, 8, 9, 0, 1, 2, 3, 4, 5, 6]
    (by decide) (by decide)

/-- C10: the Mod10Recursive check digit is self-verifying — appending the
computed check digit to the payload and running the algorithm again yields
`0`. -/
theorem mod10_check_self_verifying (ds : List ℕ) (hd : ∀ d ∈ ds, d < 10) :
    calculateMod10CheckDigit (ds ++ [calculateMod10CheckDigit ds]) = 0 := by
  have hc : mod10Carry ds < 10 := mod10Carry_lt ds
  have hzero : (mod10Carry ds + calculateMod10CheckDigit ds) % 10 = 0 := by
    unfold calculateMod10CheckDigit
    omega
  unfold calculateMod10CheckDigit
  rw [mod10Carry_append]
  rw [show mod10Carry ds + (10 - mod10Carry ds) % 10 =
      mod10Carry ds + calculateMod10CheckDigit ds from rfl, hzero]
  rfl

/-- Witness for C10 at a concrete payload. -/
theorem mod10_check_self_verifying_witness :
    calculateMod10CheckDigit ([1, 2, 3] ++ [calculateMod10CheckDigit [1, 2, 3]]) = 0 :=
  mod10_check_self_verifying [1, 2, 3] (by decide)

/-- C2 fails on the code: for the payload `12345678` the computed check value
is `72`, and the ISO 11649 verification number `12345678` ++ `2715` ++ `72`
leaves remainder `53 ≠ 1` modulo 97; moreover for the payload `539007547034`
of the repository's own valid fixture `RF18539007547034` the code computes
check digits `39` instead of the standard's `18`
(`98 - (539007547034271500 mod 97)`). -/
theorem rf97_iso_check_failure :
    calculateRF97CheckNat [1, 2, 3, 4, 5, 6, 7, 8] = 72 ∧
      natOfDigits ([1, 2, 3, 4, 5, 6, 7, 8] ++ [2, 7, 1, 5] ++ [7, 2]) % 97 = 53 ∧
      (53 : ℕ) ≠ 1 ∧
      calculateRF97CheckNat [5, 3, 9, 0, 0, 7, 5, 4, 7, 0, 3, 4] = 39 ∧
      98 - natOfDigits ([5, 3, 9, 0, 0, 7, 5, 4, 7, 0, 3, 4] ++ [2, 7, 1, 5, 0, 0]) % 97 = 18 := by
  decide

/-- C1 fails on the code: with reference scheme `QRR` and no preset reference,
the reference generated for invoice number `2024001` is the invoice digits
left-padded to 20 characters followed by the Mod10 check digit — a 21-digit
string, not 27, which the repository's own validation rule `^\d{27}$`
rejects. -/
theorem generated_qrr_reference_is_21_digits :
    generateReference "QRR" [] "2024001".toList =
        padStart 20 '0' (stripNonDigits "2024001".toList) ++
          natRepr (calculateMod10CheckDigit
            ((padStart 20 '0' (stripNonDigits "2024001".toList)).map charToDigit)) ∧
      generateReference "QRR" [] "2024001".toList = "000000000000020240019".toList ∧
      (generateReference "QRR" [] "2024001".toList).length = 21 ∧
      qrrRefPattern (generateReference "QRR" [] "2024001".toList) = false := by
  decide

/-- C5: a 21-character account of the form `CH` + 19 digits is classified
QR-capable exactly when the institution identifier at positions 4–8 lies in
the closed range `[30000, 31999]`; both boundaries are QR-capable and IID
`32000` is not, despite its matching leading digit. -/
theorem isQRIBAN_iff_iid_in_range :
    (∀ ds : List Char, ds.length = 19 → (∀ c ∈ ds, isDigitChar c = true) →
      (isQRIBAN ('C' :: 'H' :: ds) = true ↔
        30000 ≤ iidOf ('C' :: 'H' :: ds) ∧ iidOf ('C' :: 'H' :: ds) ≤ 31999)) ∧
      isQRIBAN "CH4431000123456789012".toList = true ∧
      isQRIBAN "CH4430000123456789012".toList = true ∧
      isQRIBAN "CH4432000123456789012".toList = false := by
  refine ⟨?_, by decide, by decide, by decide⟩
  intro ds hlen hdig
  rcases ds with _ | ⟨a, ds⟩; · simp at hlen
  rcases ds with _ | ⟨b, ds⟩; · simp at hlen
  rcases ds with _ | ⟨c, ds⟩; · simp at hlen
  rcases ds with _ | ⟨d, ds⟩; · simp at hlen
  rcases ds with _ | ⟨e, ds⟩; · simp at hlen
  rcases ds with _ | ⟨f, ds⟩; · simp at hlen
  rcases ds with _ | ⟨g, rest⟩; · simp at hlen
  have hrestlen : rest.length = 12 := by simpa using hlen
  have ha := isDigitChar_iff.mp (hdig a (by simp))
  have hb := isDigitChar_iff.mp (hdig b (by simp))
  have hc := isDigitChar_iff.mp (hdig c (by simp))
  have hd := isDigitChar_iff.mp (hdig d (by simp))
  have he := isDigitChar_iff.mp (hdig e (by simp))
  have hf := isDigitChar_iff.mp (hdig f (by simp))
  have hg := isDigitChar_iff.mp (hdig g (by simp))
  have hrest : rest.all isDigitChar = true :=
    List.all_eq_true.mpr fun x hx => hdig x (by simp [hx])
  have hiid : iidOf ('C' :: 'H' :: a :: b :: c :: d :: e :: f :: g :: rest) =
      (((charToDigit c * 10 + charToDigit d) * 10 + charToDigit e) * 10 +
        charToDigit f) * 10 + charToDigit g := by
    simp [iidOf, natOfDigits]
  rw [hiid]
  unfold isQRIBAN qrIbanPattern
  simp only [iidInRange, hiid, Bool.and_eq_true, Bool.or_eq_true, beq_iff_eq,
    decide_eq_true_eq, List.all_eq_true, beq_self_eq_true, List.length_cons]
  constructor
  · intro h
    tauto
  · intro h
    have hcd : charToDigit c ≤ 9 ∧ charToDigit d ≤ 9 ∧ charToDigit e ≤ 9 ∧
        charToDigit f ≤ 9 ∧ charToDigit g ≤ 9 := by
      unfold charToDigit
      omega
    have hc3 : c.toNat = 51 ∧ (d.toNat = 48 ∨ d.toNat = 49) := by
      unfold charToDigit at h hcd
      omega
    have hceq : c = '3' := char_toNat_inj (by rw [hc3.1]; rfl)
    have hdeq : d = '0' ∨ d = '1' := by
      rcases hc3.2 with h48 | h49
      · exact Or.inl (char_toNat_inj (by rw [h48]; rfl))
      · exact Or.inr (char_toNat_inj (by rw [h49]; rfl))
    subst hceq
    exact ⟨⟨⟨⟨⟨⟨⟨⟨trivial, trivial⟩, hdig a (by simp)⟩, hdig b (by simp)⟩, rfl⟩, hdeq⟩,
      by omega⟩, fun x hx => hdig x (List.mem_cons_of_mem _ (List.mem_cons_of_mem _
        (List.mem_cons_of_mem _ (List.mem_cons_of_mem _ hx))))⟩, h⟩

/-- Witness for C5: the general rule applied to the QR-IBAN body
`4431000123456789012` (IID `31000`). -/
theorem isQRIBAN_iff_iid_in_range_witness :
    isQRIBAN ('C' :: 'H' :: "4431000123456789012".toList) = true :=
  (isQRIBAN_iff_iid_in_range.1 "4431000123456789012".toList (by decide) (by decide)).mpr
    (by decide)

/-- C6: `QRBillDTO.validate` applies its rules sequentially with the first
failure winning and distinct errors: missing account, then unsupported
currency, then unsupported scheme, then the QRR account/reference rules, then
the SCOR format rule (an absent SCOR reference is permitted), then the amount
range; it rejects currency `USD`, scheme `INVALID`, a 27-digit QRR reference
on a Standard account, amount `0`, and accepts amount `999999999.99`. -/
theorem validate_rules_in_order :
    QRBillDTO.validate { validQRData with currency := "USD" } =
        .error .unsupportedCurrency ∧
      QRBillDTO.validate { validQRData with referenceType := "INVALID" } =
        .error .unsupportedScheme ∧
      QRBillDTO.validate { validQRData with
          account := "CH4432000123000889012".toList
          referenceType := "QRR"
          reference := "123456789012345678901234567".toList } =
        .error .schemeAccountMismatch ∧
      QRBillDTO.validate { validQRData with amount := 0 } = .error .amountOutOfRange ∧
      QRBillDTO.validate { validQRData with amount := 999999999.99 } = .ok () ∧
      QRBillDTO.validate { validQRData with account := [], currency := "USD" } =
        .error .missingAccount ∧
      QRBillDTO.validate { validQRData with currency := "USD", referenceType := "INVALID" } =
        .error .unsupportedCurrency ∧
      QRBillDTO.validate { validQRData with reference := [] } = .ok () ∧
      QRBillDTO.validate validQRData = .ok () ∧
      List.Pairwise (· ≠ ·)
        [ValidationError.missingAccount, ValidationError.unsupportedCurrency,
          ValidationError.unsupportedScheme, ValidationError.schemeAccountMismatch,
          ValidationError.badReferenceLength, ValidationError.badReferenceFormat,
          ValidationError.amountOutOfRange] := by
  refine ⟨?_, ?_, ?_, ?_, ?_, ?_, ?_, ?_, ?_, by decide⟩ <;>
    norm_num +decide [QRBillDTO.validate, validQRData]

/-- C7: `parseAmount` keeps only digits, dot, comma, apostrophe and minus,
takes the rightmost of `.` and `,` as the decimal separator stripping the
other symbol and apostrophes (apostrophes only when neither occurs), and
returns `0` for empty or non-numeric input, null and undefined; the listed
concrete examples hold, and stripping the unkept characters first never
changes the result. -/
theorem parseAmount_lenient :
    parseAmount (.str "CHF 1,234.56".toList) = 1234.56 ∧
      parseAmount (.str "€ 1 234,56".toList) = 1234.56 ∧
      parseAmount (.str "1'234.56 CHF".toList) = 1234.56 ∧
      parseAmount (.str "".toList) = 0 ∧
      parseAmount .nullV = 0 ∧
      parseAmount .undefinedV = 0 ∧
      ∀ s : List Char, parseAmount (.str s) = parseAmount (.str (cleanAmountChars s)) := by
  refine ⟨?_, ?_, ?_, ?_, rfl, rfl, ?_⟩
  · have h1 : disambiguateSeparators (cleanAmountChars "CHF 1,234.56".toList) =
        "1234.56".toList := by decide
    have h2 : jsParseFloatParts "1234.56".toList = (false, [1, 2, 3, 4], [5, 6]) := by decide
    simp only [parseAmount]
    rw [h1]
    simp only [jsParseFloat, h2]
    norm_num [natOfDigits, fracValue]
  · have h1 : disambiguateSeparators (cleanAmountChars "€ 1 234,56".toList) =
        "1234.56".toList := by decide
    have h2 : jsParseFloatParts "1234.56".toList = (false, [1, 2, 3, 4], [5, 6]) := by decide
    simp only [parseAmount]
    rw [h1]
    simp only [jsParseFloat, h2]
    norm_num [natOfDigits, fracValue]
  · have h1 : disambiguateSeparators (cleanAmountChars "1'234.56 CHF".toList) =
        "1234.56".toList := by decide
    have h2 : jsParseFloatParts "1234.56".toList = (false, [1, 2, 3, 4], [5, 6]) := by decide
    simp only [parseAmount]
    rw [h1]
    simp only [jsParseFloat, h2]
    norm_num [natOfDigits, fracValue]
  · have h1 : disambiguateSeparators (cleanAmountChars "".toList) = "".toList := by decide
    have h2 : jsParseFloatParts "".toList = (false, [], []) := by decide
    simp only [parseAmount]
    rw [h1]
    simp only [jsParseFloat, h2]
    norm_num
  · intro s
    have hidem : cleanAmountChars (cleanAmountChars s) = cleanAmountChars s := by
      simp [cleanAmountChars, List.filter_filter]
    simp [parseAmount, hidem]

/-- C8 counterexample: at the cent-boundary input `-123.455` the code rounds
toward `+∞` and returns `-123.45`, not the half-away-from-zero value
`-123.46`. -/
theorem roundCurrency_not_half_away_from_zero :
    roundCurrency (-123.455) = -123.45 ∧ (-123.45 : ℚ) ≠ -123.46 := by
  constructor
  · norm_num [roundCurrency, jsRound, epsJS]
  · norm_num

/-- C8 (amended): `roundCurrency` returns an integer number of cents within
`1/200 + ε` of its input, rounds exact cent boundaries half-up (toward `+∞`,
which is half-away-from-zero for nonnegative inputs), and maps `123.455` to
`123.46`. -/
theorem roundCurrency_two_decimals_half_up :
    (∀ x : ℚ, ∃ n : ℤ, roundCurrency x = (n : ℚ) / 100 ∧
        |roundCurrency x - x| ≤ 1 / 200 + epsJS) ∧
      (∀ k : ℤ, roundCurrency ((2 * k + 1 : ℚ) / 200) = ((k : ℚ) + 1) / 100) ∧
      roundCurrency 123.455 = 123.46 := by
  have heps : (0 : ℚ) ≤ epsJS := by norm_num [epsJS]
  refine ⟨?_, ?_, by norm_num [roundCurrency, jsRound, epsJS]⟩
  · intro x
    refine ⟨jsRound ((x + epsJS) * 100), rfl, ?_⟩
    have h1 : ((jsRound ((x + epsJS) * 100) : ℚ)) ≤ (x + epsJS) * 100 + 1 / 2 :=
      Int.floor_le _
    have h2 : (x + epsJS) * 100 + 1 / 2 < (jsRound ((x + epsJS) * 100) : ℚ) + 1 :=
      Int.lt_floor_add_one _
    rw [abs_le]
    constructor
    · rw [roundCurrency]
      nlinarith
    · rw [roundCurrency]
      nlinarith
  · intro k
    have harg : (((2 * k + 1 : ℚ) / 200 + epsJS) * 100 + 1 / 2) =
        ((k + 1 : ℤ) : ℚ) + 100 * epsJS := by
      push_cast
      ring
    have hfloor : jsRound (((2 * k + 1 : ℚ) / 200 + epsJS) * 100) = k + 1 := by
      rw [jsRound, harg, Int.floor_int_add]
      have : ⌊(100 * epsJS : ℚ)⌋ = 0 := by
        rw [Int.floor_eq_zero_iff]
        constructor <;> norm_num [epsJS]
      omega
    rw [roundCurrency, hfloor]
    push_cast
    ring

/-- C9: `roundCurrency` is idempotent — rounding an already rounded value
changes nothing. -/
theorem roundCurrency_idempotent (x : ℚ) :
    roundCurrency (roundCurrency x) = roundCurrency x := by
  rw [roundCurrency, roundCurrency]
  have harg : (((jsRound ((x + epsJS) * 100) : ℚ) / 100 + epsJS) * 100 + 1 / 2) =
      (jsRound ((x + epsJS) * 100) : ℚ) + (100 * epsJS + 1 / 2) := by
    ring
  rw [jsRound, harg, Int.floor_int_add]
  have : ⌊(100 * epsJS + 1 / 2 : ℚ)⌋ = 0 := by
    rw [Int.floor_eq_zero_iff]
    constructor <;> norm_num [epsJS]
  rw [this, add_zero]

end ElastiqInvoices
